import Mathlib

/-!
Verification of the conversation-memory and chat-orchestration core of a
FastAPI chat backend (`backend/server.py`).  The persistent store is modelled
as a map from storage keys to optional decoded JSON arrays of message records;
the fallible collaborators of the `/chat` endpoint (storage load, model
invocation, storage save) are modelled with `Except`/`Option` fault-injection
points matching the `try/except` boundary of the Python code.
-/

namespace Server

/-- A stored message record: `{role, content, timestamp}` (class `Message`
in `server.py`; the stored dictionary format used by `chat`). -/
structure Message where
  role : String
  content : String
  timestamp : String
deriving DecidableEq, Repr

/-- A LangChain message object: `SystemMessage`, `HumanMessage`, `AIMessage`. -/
inductive LCMessage where
  | system (content : String)
  | human (content : String)
  | ai (content : String)
deriving DecidableEq, Repr

/-- Request body of `POST /chat` (`ChatRequest` in `server.py`):
`message: str`, `session_id: Optional[str] = None`. -/
structure ChatRequest where
  message : String
  session_id : Option String
deriving DecidableEq, Repr

/-- Response body of `POST /chat` (`ChatResponse` in `server.py`). -/
structure ChatResponse where
  response : String
  session_id : String
deriving DecidableEq, Repr

/-- Response of `GET /conversation/{session_id}`. -/
structure ConversationResponse where
  session_id : String
  messages : List Message
deriving DecidableEq, Repr

/-- Outcome at an HTTP endpoint boundary: a successful body, or an
`HTTPException(status_code, detail)`. -/
inductive HttpResult (α : Type) where
  | ok (value : α)
  | error (status : Nat) (detail : String)
deriving DecidableEq, Repr

/-- `get_memory_path`: `f"{session_id}.json"`. -/
def get_memory_path (session_id : String) : String :=
  session_id ++ ".json"

/-- The persistent store (local memory directory or S3 bucket): a map from
storage key to the decoded JSON array stored there, `none` when no file or
object exists under that key. -/
def Store : Type := String → Option (List Message)

/-- `save_conversation`: writes the JSON array for `session_id` under
`get_memory_path session_id`, replacing any previous content; both backends
perform the same full rewrite of the one key. -/
def save_conversation (store : Store) (session_id : String)
    (messages : List Message) : Store :=
  fun key =>
    if key = get_memory_path session_id then some messages else store key

/-- `load_conversation`, local-file branch: return the decoded array if the
file exists, else `[]`. -/
def load_conversation_local (store : Store) (session_id : String) :
    List Message :=
  (store (get_memory_path session_id)).getD []

/-- Result of `s3_client.get_object`: the decoded body on success, or a
botocore `ClientError` carrying `e.response["Error"]["Code"]`. -/
inductive S3GetObjectResult where
  | ok (body : List Message)
  | clientError (code : String)
deriving DecidableEq, Repr

/-- The `try/except ClientError` handler in `load_conversation`'s S3 branch:
`NoSuchKey` yields `[]`, any other `ClientError` is re-raised. -/
def handle_s3_get (r : S3GetObjectResult) : Except String (List Message) :=
  match r with
  | .ok body => .ok body
  | .clientError code =>
      if code = "NoSuchKey" then .ok [] else .error code

/-- `s3_client.get_object` over the modelled store: an absent key raises
`ClientError` with code `NoSuchKey`. -/
def s3_get_object (store : Store) (key : String) : S3GetObjectResult :=
  match store key with
  | some body => .ok body
  | none => .clientError "NoSuchKey"

/-- `load_conversation`, S3 branch, over the modelled store. -/
def load_conversation_s3 (store : Store) (session_id : String) :
    Except String (List Message) :=
  handle_s3_get (s3_get_object store (get_memory_path session_id))

/-- The loop body of `to_lc_messages`: the accumulated list after processing
the remaining records, starting from the already-built `lc`. -/
def to_lc_messages_loop (lc : List LCMessage) :
    List Message → List LCMessage
  | [] => lc
  | msg :: rest =>
      let lc :=
        if msg.role = "user" then lc ++ [LCMessage.human msg.content]
        else if msg.role = "assistant" then lc ++ [LCMessage.ai msg.content]
        else lc
      to_lc_messages_loop lc rest

/-- `to_lc_messages(conversation, system_prompt)`: starts from
`[SystemMessage(system_prompt)]` and appends one LangChain message per
recognised record. -/
def to_lc_messages (conversation : List Message) (system_prompt : String) :
    List LCMessage :=
  to_lc_messages_loop [LCMessage.system system_prompt] conversation

/-- Specification-side view of one loop iteration of `to_lc_messages`:
`user` → human, `assistant` → ai, anything else dropped. -/
def to_lc_message? (msg : Message) : Option LCMessage :=
  if msg.role = "user" then some (LCMessage.human msg.content)
  else if msg.role = "assistant" then some (LCMessage.ai msg.content)
  else none

/-- Python's `l[-n:]`: the suffix of the `n` most recent elements (the whole
list when it is shorter than `n`). -/
def pySliceLastN (n : Nat) (l : List α) : List α :=
  l.drop (l.length - n)

/-- The model input built by `chat`: `to_lc_messages(conversation[-10:],
prompt())` followed by `HumanMessage(request.message)` appended. -/
def build_model_input (conversation : List Message)
    (system_prompt user_message : String) : List LCMessage :=
  to_lc_messages (pySliceLastN 10 conversation) system_prompt
    ++ [LCMessage.human user_message]

/-- `request.session_id or str(uuid.uuid4())`: Python `or` falls through to
the fresh UUID when `session_id` is `None` or the empty string (falsy). -/
def effective_session_id (session_id : Option String) (fresh : String) :
    String :=
  match session_id with
  | none => fresh
  | some s => if s = "" then fresh else s

/-- The `detail` string of the 500 raised by `chat`'s `except` clause:
`f"Internal Server Error: {str(e)}"`. -/
def internalError (e : String) : String :=
  "Internal Server Error: " ++ e

/-- The environment one `/chat` invocation runs in: the current store, the
behaviour of `load_conversation` (which may raise), the behaviour of
`llm.invoke` (which may raise), an optional fault raised by
`save_conversation`, the fresh UUID `str(uuid.uuid4())` would produce, the
current `datetime.now().isoformat()` string, and the fixed system prompt
returned by `prompt()`. -/
structure World where
  store : Store
  load : String → Except String (List Message)
  llm : List LCMessage → Except String String
  saveFault : Option String
  freshUuid : String
  now : String
  systemPrompt : String

/-- A non-raising model invocation. -/
def okLlm (f : List LCMessage → String) :
    List LCMessage → Except String String :=
  fun msgs => .ok (f msgs)

/-- The local-backend `load_conversation` as a `World.load` behaviour: it
returns the stored array (or `[]`) and does not raise. -/
def localLoad (store : Store) : String → Except String (List Message) :=
  fun session_id => .ok (load_conversation_local store session_id)

/-- The `POST /chat` endpoint body (`chat` in `server.py`): resolve the
session id, load history, build the windowed model input, invoke the model,
append the user and assistant records sharing one timestamp, persist, and
return; any fault at the three fallible points is caught by the `except`
clause and surfaced as a 500 whose detail embeds the fault's description,
with the store left as it was. -/
def chat (w : World) (request : ChatRequest) :
    HttpResult ChatResponse × Store :=
  let session_id := effective_session_id request.session_id w.freshUuid
  match w.load session_id with
  | .error e => (.error 500 (internalError e), w.store)
  | .ok conversation =>
    let lc_messages := build_model_input conversation w.systemPrompt
      request.message
    match w.llm lc_messages with
    | .error e => (.error 500 (internalError e), w.store)
    | .ok assistant_response =>
      let conversation := conversation ++
        [⟨"user", request.message, w.now⟩,
         ⟨"assistant", assistant_response, w.now⟩]
      match w.saveFault with
      | some e => (.error 500 (internalError e), w.store)
      | none =>
        (.ok ⟨assistant_response, session_id⟩,
         save_conversation w.store session_id conversation)

/-- The `GET /conversation/{session_id}` endpoint body: return the loaded
history, or a 500 whose detail is `str(e)` when `load_conversation` raises. -/
def get_conversation (loadResult : Except String (List Message))
    (session_id : String) : HttpResult ConversationResponse :=
  match loadResult with
  | .ok conversation => .ok ⟨session_id, conversation⟩
  | .error e => .error 500 e

/-- A non-faulting local-backend deployment of the `/chat` endpoint. -/
def localWorld (store : Store) (f : List LCMessage → String)
    (fresh now sp : String) : World :=
  ⟨store, localLoad store, okLlm f, none, fresh, now, sp⟩

/-- One `/chat` call without a supplied session id against the local backend
with no faults. -/
def chat_local (store : Store) (f : List LCMessage → String)
    (fresh now sp msg : String) : HttpResult ChatResponse × Store :=
  chat (localWorld store f fresh now sp) ⟨msg, none⟩

/-! ### Helper lemmas -/

theorem to_lc_messages_loop_eq (conversation : List Message)
    (lc : List LCMessage) :
    to_lc_messages_loop lc conversation =
      lc ++ conversation.filterMap to_lc_message? := by
  induction conversation generalizing lc with
  | nil => simp [to_lc_messages_loop]
  | cons m rest ih =>
      by_cases hu : m.role = "user"
      · simp [to_lc_messages_loop, to_lc_message?, hu, ih]
      · by_cases ha : m.role = "assistant"
        · simp [to_lc_messages_loop, to_lc_message?, hu, ha, ih]
        · simp [to_lc_messages_loop, to_lc_message?, hu, ha, ih]

theorem to_lc_messages_eq (conversation : List Message) (sp : String) :
    to_lc_messages conversation sp =
      LCMessage.system sp :: conversation.filterMap to_lc_message? := by
  simp [to_lc_messages, to_lc_messages_loop_eq]

theorem filterMap_valid_roles (l : List Message)
    (h : ∀ m ∈ l, m.role = "user" ∨ m.role = "assistant") :
    l.filterMap to_lc_message? =
      l.map (fun m => if m.role = "user" then LCMessage.human m.content
                      else LCMessage.ai m.content) := by
  induction l with
  | nil => simp
  | cons m rest ih =>
      have hrest := ih (fun x hx => h x (List.mem_cons_of_mem _ hx))
      rcases h m (List.mem_cons_self ..) with hu | ha
      · simp [to_lc_message?, hu, hrest]
      · by_cases hu : m.role = "user"
        · simp [to_lc_message?, hu, hrest]
        · simp [to_lc_message?, hu, ha, hrest]

theorem pySliceLastN_length (n : Nat) (l : List α) :
    (pySliceLastN n l).length = min n l.length := by
  simp [pySliceLastN]; omega

theorem pySliceLastN_suffix (n : Nat) (l : List α) : pySliceLastN n l <:+ l :=
  ⟨l.take (l.length - n), List.take_append_drop _ _⟩

theorem get_memory_path_inj {a b : String}
    (h : get_memory_path a = get_memory_path b) : a = b := by
  have hd := congrArg String.data h
  simp only [get_memory_path, String.data_append] at hd
  exact String.ext (List.append_cancel_right hd)

theorem save_conversation_ne (store : Store) (a b : String)
    (msgs : List Message) (h : get_memory_path b ≠ get_memory_path a) :
    save_conversation store a msgs (get_memory_path b) =
      store (get_memory_path b) := by
  simp [save_conversation, h]

/-! ### Claim theorems -/

/-- C3: for every list of message records and every system prompt, the
formatter's output is the system instruction followed by one role-tagged
message per input record (`user` → human, `assistant` → model), preserving
order and content, with records of any other role silently dropped. -/
theorem formatter_spec (conversation : List Message)
    (system_prompt : String) :
    to_lc_messages conversation system_prompt =
      LCMessage.system system_prompt ::
        conversation.filterMap to_lc_message? ∧
    ∀ role content timestamp : String,
      to_lc_message? ⟨role, content, timestamp⟩ =
        if role = "user" then some (LCMessage.human content)
        else if role = "assistant" then some (LCMessage.ai content)
        else none :=
  ⟨to_lc_messages_eq conversation system_prompt,
   fun _ _ _ => rfl⟩

/-- C5: saving a history and then loading it for the same session id returns
the saved sequence record-for-record, in both the local-file and the
object-store backend. -/
theorem save_load_roundtrip (store : Store) (session_id : String)
    (messages : List Message) :
    load_conversation_local (save_conversation store session_id messages)
      session_id = messages ∧
    load_conversation_s3 (save_conversation store session_id messages)
      session_id = Except.ok messages := by
  constructor
  · simp [load_conversation_local, save_conversation]
  · simp [load_conversation_s3, save_conversation, s3_get_object,
      handle_s3_get]

/-- C6: for a session id with no stored file or object, `load` returns the
empty sequence in both backends, and `GET /conversation/{session_id}`
returns an empty messages list. -/
theorem fresh_session_empty (store : Store) (session_id : String)
    (h : store (get_memory_path session_id) = none) :
    load_conversation_local store session_id = [] ∧
    load_conversation_s3 store session_id = Except.ok [] ∧
    get_conversation (Except.ok (load_conversation_local store session_id))
      session_id = .ok ⟨session_id, []⟩ ∧
    get_conversation (load_conversation_s3 store session_id) session_id =
      .ok ⟨session_id, []⟩ := by
  have h1 : load_conversation_local store session_id = [] := by
    simp [load_conversation_local, h]
  have h2 : load_conversation_s3 store session_id = Except.ok [] := by
    simp [load_conversation_s3, s3_get_object, h, handle_s3_get]
  exact ⟨h1, h2, by rw [h1]; rfl, by rw [h2]; rfl⟩

/-- Witness for C6 at a store holding nothing. -/
theorem fresh_session_empty_witness :
    load_conversation_local (fun _ => none) "fresh" = [] ∧
    load_conversation_s3 (fun _ => none) "fresh" = Except.ok [] ∧
    get_conversation
      (Except.ok (load_conversation_local (fun _ => none) "fresh"))
      "fresh" = .ok ⟨"fresh", []⟩ ∧
    get_conversation (load_conversation_s3 (fun _ => none) "fresh") "fresh" =
      .ok ⟨"fresh", []⟩ :=
  fresh_session_empty (fun _ => none) "fresh" rfl

/-- C4: a `NoSuchKey` `ClientError` on object-store retrieval yields the
empty history instead of raising; any other `ClientError` code propagates,
and a propagated load fault surfaces as HTTP 500 from both
`GET /conversation` and `POST /chat`. -/
theorem s3_notfound_and_fault_propagation :
    handle_s3_get (S3GetObjectResult.clientError "NoSuchKey") =
      Except.ok [] ∧
    (∀ code, code ≠ "NoSuchKey" →
      handle_s3_get (S3GetObjectResult.clientError code) =
        Except.error code) ∧
    (∀ session_id e,
      get_conversation (Except.error e) session_id =
        HttpResult.error 500 e) ∧
    (∀ (w : World) (request : ChatRequest) (e : String),
      w.load (effective_session_id request.session_id w.freshUuid) =
        Except.error e →
      chat w request = (.error 500 (internalError e), w.store)) := by
  refine ⟨rfl, fun code hc => ?_, fun session_id e => rfl,
    fun w request e hl => ?_⟩
  · simp [handle_s3_get, hc]
  · simp [chat, hl]

/-- Witness for C4: a non-`NoSuchKey` fault propagates, and a load fault
surfaces as a 500 at both endpoints. -/
theorem s3_notfound_and_fault_propagation_witness :
    handle_s3_get (S3GetObjectResult.clientError "AccessDenied") =
      Except.error "AccessDenied" ∧
    get_conversation (Except.error "boom") "sid" =
      HttpResult.error 500 "boom" ∧
    chat ⟨fun _ => none, fun _ => Except.error "boom",
          okLlm (fun _ => "x"), none, "u", "t", "p"⟩ ⟨"hello", none⟩ =
      (.error 500 (internalError "boom"), fun _ => none) :=
  ⟨s3_notfound_and_fault_propagation.2.1 "AccessDenied" (by decide),
   s3_notfound_and_fault_propagation.2.2.1 "sid" "boom",
   s3_notfound_and_fault_propagation.2.2.2
     ⟨fun _ => none, fun _ => Except.error "boom",
      okLlm (fun _ => "x"), none, "u", "t", "p"⟩ ⟨"hello", none⟩ "boom" rfl⟩

/-- C10: the storage key derivation is the injective map
`id ↦ id ++ ".json"` with no sanitization, so distinct session ids get
distinct keys and a save under one id never touches the other's key. -/
theorem memory_path_injective_no_sanitization (a b : String) (h : a ≠ b) :
    get_memory_path a ≠ get_memory_path b ∧
    get_memory_path a = a ++ ".json" ∧
    ∀ (store : Store) (msgs : List Message),
      save_conversation store a msgs (get_memory_path b) =
        store (get_memory_path b) := by
  refine ⟨fun heq => h (get_memory_path_inj heq), rfl,
    fun store msgs => ?_⟩
  exact save_conversation_ne store a b msgs
    (fun heq => h (get_memory_path_inj heq).symm)

/-- Witness for C10 at two concrete distinct session ids. -/
theorem memory_path_injective_no_sanitization_witness :
    get_memory_path "a" ≠ get_memory_path "b" ∧
    get_memory_path "a" = "a" ++ ".json" ∧
    save_conversation (fun _ => none) "a" [] (get_memory_path "b") =
      (fun _ : String => (none : Option (List Message)))
        (get_memory_path "b") :=
  ⟨(memory_path_injective_no_sanitization "a" "b" (by decide)).1,
   (memory_path_injective_no_sanitization "a" "b" (by decide)).2.1,
   (memory_path_injective_no_sanitization "a" "b" (by decide)).2.2
     (fun _ => none) []⟩

/-- C2: the model input built by `chat` has at most 12 elements (system
message, at most 10 historical records, final new user message); the window
passed to the formatter is the suffix of the most recent `min 10 length`
stored records, and when its records carry recognised roles they all appear,
in stored order, between the system message and the new user message. -/
theorem model_input_window (conversation : List Message)
    (system_prompt user_message : String) :
    (build_model_input conversation system_prompt user_message).length
      ≤ 12 ∧
    pySliceLastN 10 conversation <:+ conversation ∧
    (pySliceLastN 10 conversation).length = min 10 conversation.length ∧
    ((∀ m ∈ pySliceLastN 10 conversation,
        m.role = "user" ∨ m.role = "assistant") →
      build_model_input conversation system_prompt user_message =
        LCMessage.system system_prompt ::
          ((pySliceLastN 10 conversation).map
            (fun m => if m.role = "user" then LCMessage.human m.content
                      else LCMessage.ai m.content)
            ++ [LCMessage.human user_message])) := by
  refine ⟨?_, pySliceLastN_suffix _ _, pySliceLastN_length _ _, ?_⟩
  · have h1 : ((pySliceLastN 10 conversation).filterMap
        to_lc_message?).length ≤ (pySliceLastN 10 conversation).length :=
      List.length_filterMap_le _ _
    have h2 : (pySliceLastN 10 conversation).length ≤ 10 := by
      rw [pySliceLastN_length]; omega
    simp [build_model_input, to_lc_messages_eq]
    omega
  · intro hvalid
    simp [build_model_input, to_lc_messages_eq,
      filterMap_valid_roles _ hvalid]

/-- Witness for C2 at a one-record history of a recognised role. -/
theorem model_input_window_witness :
    (∀ m ∈ pySliceLastN 10 [(⟨"user", "hi", "t"⟩ : Message)],
        m.role = "user" ∨ m.role = "assistant") ∧
    (build_model_input [⟨"user", "hi", "t"⟩] "p" "m").length ≤ 12 ∧
    build_model_input [⟨"user", "hi", "t"⟩] "p" "m" =
      LCMessage.system "p" ::
        ((pySliceLastN 10 [(⟨"user", "hi", "t"⟩ : Message)]).map
          (fun m => if m.role = "user" then LCMessage.human m.content
                    else LCMessage.ai m.content)
          ++ [LCMessage.human "m"]) :=
  ⟨by decide,
   (model_input_window [⟨"user", "hi", "t"⟩] "p" "m").1,
   (model_input_window [⟨"user", "hi", "t"⟩] "p" "m").2.2.2 (by decide)⟩

/-- C1: a successful `/chat` call persists, under the resolved session's
key, exactly the loaded history with a user record for the request message
and an assistant record for the returned response appended in order, both
carrying the same timestamp; every other key of the store is untouched. -/
theorem chat_persists_two_records (w : World) (request : ChatRequest)
    (r : ChatResponse) (store2 : Store) (old : List Message)
    (hload : w.load (effective_session_id request.session_id w.freshUuid) =
      Except.ok old)
    (hchat : chat w request = (.ok r, store2)) :
    r.session_id = effective_session_id request.session_id w.freshUuid ∧
    store2 (get_memory_path r.session_id) =
      some (old ++
        [⟨"user", request.message, w.now⟩,
         ⟨"assistant", r.response, w.now⟩]) ∧
    ∀ key, key ≠ get_memory_path r.session_id →
      store2 key = w.store key := by
  cases hm : w.llm (build_model_input old w.systemPrompt request.message) with
  | error e =>
      have hc : chat w request = (.error 500 (internalError e), w.store) := by
        simp [chat, hload, hm]
      rw [hc] at hchat
      simp at hchat
  | ok answer =>
      cases hs : w.saveFault with
      | some e =>
          have hc : chat w request =
              (.error 500 (internalError e), w.store) := by
            simp [chat, hload, hm, hs]
          rw [hc] at hchat
          simp at hchat
      | none =>
          have hc : chat w request =
              (.ok ⟨answer,
                    effective_session_id request.session_id w.freshUuid⟩,
               save_conversation w.store
                 (effective_session_id request.session_id w.freshUuid)
                 (old ++
                   [⟨"user", request.message, w.now⟩,
                    ⟨"assistant", answer, w.now⟩])) := by
            simp [chat, hload, hm, hs]
          rw [hc] at hchat
          injection hchat with ha hb
          injection ha with ha
          subst hb
          subst ha
          refine ⟨rfl, ?_, ?_⟩
          · simp [save_conversation]
          · intro key hk
            simp [save_conversation, hk]

/-- Witness for C1: one call on an empty store persists the two new
records. -/
theorem chat_persists_two_records_witness :
    (ChatResponse.mk "ok!" "s").session_id =
      effective_session_id none "s" ∧
    save_conversation (fun _ => none) "s"
        [⟨"user", "Hello", "t"⟩, ⟨"assistant", "ok!", "t"⟩]
        (get_memory_path (ChatResponse.mk "ok!" "s").session_id) =
      some ([] ++
        [⟨"user", "Hello", "t"⟩,
         ⟨"assistant", (ChatResponse.mk "ok!" "s").response, "t"⟩]) ∧
    ∀ key, key ≠ get_memory_path (ChatResponse.mk "ok!" "s").session_id →
      save_conversation (fun _ => none) "s"
        [⟨"user", "Hello", "t"⟩, ⟨"assistant", "ok!", "t"⟩] key =
      (fun _ : String => (none : Option (List Message))) key :=
  chat_persists_two_records
    ⟨fun _ => none, localLoad (fun _ => none), okLlm (fun _ => "ok!"),
     none, "s", "t", "p"⟩
    ⟨"Hello", none⟩ ⟨"ok!", "s"⟩ _ [] rfl rfl

/-- C7: a fault at the load, model-invocation, or persistence step of a
`/chat` call is caught and surfaced as HTTP 500 whose detail embeds the
fault's description, and a fault before the persistence step leaves the
store unchanged. -/
theorem chat_fault_semantics (w : World) (request : ChatRequest)
    (e : String) :
    internalError e = "Internal Server Error: " ++ e ∧
    (w.load (effective_session_id request.session_id w.freshUuid) =
        Except.error e →
      chat w request = (.error 500 (internalError e), w.store)) ∧
    (∀ conversation,
      w.load (effective_session_id request.session_id w.freshUuid) =
        Except.ok conversation →
      w.llm (build_model_input conversation w.systemPrompt
          request.message) = Except.error e →
      chat w request = (.error 500 (internalError e), w.store)) ∧
    (∀ conversation answer,
      w.load (effective_session_id request.session_id w.freshUuid) =
        Except.ok conversation →
      w.llm (build_model_input conversation w.systemPrompt
          request.message) = Except.ok answer →
      w.saveFault = some e →
      (chat w request).1 = .error 500 (internalError e)) := by
  refine ⟨rfl, fun hl => ?_, fun conversation hl hm => ?_,
    fun conversation answer hl hm hs => ?_⟩
  · simp [chat, hl]
  · simp [chat, hl, hm]
  · simp [chat, hl, hm, hs]

/-- Witness for C7: concrete load, model, and save faults each yield the
500 with the fault's description, with the store unchanged for the first
two. -/
theorem chat_fault_semantics_witness :
    internalError "boom" = "Internal Server Error: " ++ "boom" ∧
    chat ⟨fun _ => none, fun _ => Except.error "boom",
          okLlm (fun _ => "x"), none, "u", "t", "p"⟩ ⟨"hi", none⟩ =
      (.error 500 (internalError "boom"), fun _ => none) ∧
    chat ⟨fun _ => none, localLoad (fun _ => none),
          fun _ => Except.error "boom", none, "u", "t", "p"⟩ ⟨"hi", none⟩ =
      (.error 500 (internalError "boom"), fun _ => none) ∧
    (chat ⟨fun _ => none, localLoad (fun _ => none),
           okLlm (fun _ => "x"), some "boom", "u", "t", "p"⟩
       ⟨"hi", none⟩).1 = .error 500 (internalError "boom") :=
  ⟨(chat_fault_semantics
      ⟨fun _ => none, fun _ => Except.error "boom",
       okLlm (fun _ => "x"), none, "u", "t", "p"⟩ ⟨"hi", none⟩ "boom").1,
   (chat_fault_semantics
      ⟨fun _ => none, fun _ => Except.error "boom",
       okLlm (fun _ => "x"), none, "u", "t", "p"⟩ ⟨"hi", none⟩
      "boom").2.1 rfl,
   (chat_fault_semantics
      ⟨fun _ => none, localLoad (fun _ => none),
       fun _ => Except.error "boom", none, "u", "t", "p"⟩ ⟨"hi", none⟩
      "boom").2.2.1 [] rfl rfl,
   (chat_fault_semantics
      ⟨fun _ => none, localLoad (fun _ => none),
       okLlm (fun _ => "x"), some "boom", "u", "t", "p"⟩ ⟨"hi", none⟩
      "boom").2.2.2 [] "x" rfl rfl rfl⟩

/-- One non-faulting local-backend `/chat` call without a supplied session
id, computed in closed form. -/
theorem chat_local_eq (store : Store) (f : List LCMessage → String)
    (fresh now sp msg : String) :
    chat_local store f fresh now sp msg =
      (.ok ⟨f (build_model_input (load_conversation_local store fresh)
              sp msg),
            fresh⟩,
       save_conversation store fresh
         (load_conversation_local store fresh ++
           [⟨"user", msg, now⟩,
            ⟨"assistant",
             f (build_model_input (load_conversation_local store fresh)
               sp msg),
             now⟩])) := rfl

/-- C8: two `/chat` calls without a session id, given distinct fresh
identifiers, return those distinct identifiers, store their histories under
distinct keys, and neither call reads or rewrites the other session's
stored history. -/
theorem distinct_sessions_independent (store : Store)
    (f1 f2 : List LCMessage → String)
    (fresh1 fresh2 now1 now2 sp m1 m2 : String)
    (hne : fresh1 ≠ fresh2) :
    (chat_local store f1 fresh1 now1 sp m1).1 =
      .ok ⟨f1 (build_model_input (load_conversation_local store fresh1)
              sp m1),
           fresh1⟩ ∧
    (chat_local (chat_local store f1 fresh1 now1 sp m1).2
        f2 fresh2 now2 sp m2).1 =
      .ok ⟨f2 (build_model_input
              (load_conversation_local
                (chat_local store f1 fresh1 now1 sp m1).2 fresh2)
              sp m2),
           fresh2⟩ ∧
    get_memory_path fresh1 ≠ get_memory_path fresh2 ∧
    (chat_local store f1 fresh1 now1 sp m1).2 (get_memory_path fresh2) =
      store (get_memory_path fresh2) ∧
    (chat_local (chat_local store f1 fresh1 now1 sp m1).2
        f2 fresh2 now2 sp m2).2 (get_memory_path fresh1) =
      (chat_local store f1 fresh1 now1 sp m1).2 (get_memory_path fresh1) := by
  have hpath : get_memory_path fresh1 ≠ get_memory_path fresh2 :=
    fun heq => hne (get_memory_path_inj heq)
  refine ⟨by rw [chat_local_eq], by rw [chat_local_eq], hpath, ?_, ?_⟩
  · rw [chat_local_eq]
    exact save_conversation_ne _ _ _ _ (Ne.symm hpath)
  · rw [chat_local_eq store f1 fresh1 now1 sp m1,
      chat_local_eq _ f2 fresh2 now2 sp m2]
    exact save_conversation_ne _ _ _ _ hpath

/-- Witness for C8 at two concrete distinct fresh identifiers. -/
theorem distinct_sessions_independent_witness :
    (chat_local (fun _ => none) (fun _ => "r1") "a" "t1" "p" "x").1 =
      .ok ⟨(fun _ => "r1")
             (build_model_input
               (load_conversation_local (fun _ => none) "a") "p" "x"),
           "a"⟩ ∧
    (chat_local
        (chat_local (fun _ => none) (fun _ => "r1") "a" "t1" "p" "x").2
        (fun _ => "r2") "b" "t2" "p" "y").1 =
      .ok ⟨(fun _ => "r2")
             (build_model_input
               (load_conversation_local
                 (chat_local (fun _ => none) (fun _ => "r1")
                   "a" "t1" "p" "x").2 "b")
               "p" "y"),
           "b"⟩ ∧
    get_memory_path "a" ≠ get_memory_path "b" ∧
    (chat_local (fun _ => none) (fun _ => "r1") "a" "t1" "p" "x").2
        (get_memory_path "b") =
      (fun _ : String => (none : Option (List Message)))
        (get_memory_path "b") ∧
    (chat_local
        (chat_local (fun _ => none) (fun _ => "r1") "a" "t1" "p" "x").2
        (fun _ => "r2") "b" "t2" "p" "y").2 (get_memory_path "a") =
      (chat_local (fun _ => none) (fun _ => "r1") "a" "t1" "p" "x").2
        (get_memory_path "a") :=
  distinct_sessions_independent (fun _ => none) (fun _ => "r1")
    (fun _ => "r2") "a" "b" "t1" "t2" "p" "x" "y" (by decide)

/-- C9: a `/chat` request whose `session_id` field is the empty string is
treated exactly as an absent session id: the call behaves identically, the
empty string is never used as the session key, and a successful call
returns the fresh generated identifier. -/
theorem empty_session_id_fresh (w : World) (msg : String) :
    chat w ⟨msg, some ""⟩ = chat w ⟨msg, none⟩ ∧
    effective_session_id (some "") w.freshUuid = w.freshUuid ∧
    ∀ (r : ChatResponse) (store2 : Store),
      chat w ⟨msg, some ""⟩ = (.ok r, store2) →
      r.session_id = w.freshUuid := by
  refine ⟨rfl, rfl, fun r store2 hchat => ?_⟩
  cases hl : w.load w.freshUuid with
  | error e =>
      have hc : chat w ⟨msg, some ""⟩ =
          (.error 500 (internalError e), w.store) := by
        simp [chat, effective_session_id, hl]
      rw [hc] at hchat
      simp at hchat
  | ok conversation =>
      cases hm : w.llm (build_model_input conversation w.systemPrompt msg)
        with
      | error e =>
          have hc : chat w ⟨msg, some ""⟩ =
              (.error 500 (internalError e), w.store) := by
            simp [chat, effective_session_id, hl, hm]
          rw [hc] at hchat
          simp at hchat
      | ok answer =>
          cases hs : w.saveFault with
          | some e =>
              have hc : chat w ⟨msg, some ""⟩ =
                  (.error 500 (internalError e), w.store) := by
                simp [chat, effective_session_id, hl, hm, hs]
              rw [hc] at hchat
              simp at hchat
          | none =>
              have hc : chat w ⟨msg, some ""⟩ =
                  (.ok ⟨answer, w.freshUuid⟩,
                   save_conversation w.store w.freshUuid
                     (conversation ++
                       [⟨"user", msg, w.now⟩,
                        ⟨"assistant", answer, w.now⟩])) := by
                simp [chat, effective_session_id, hl, hm, hs]
              rw [hc] at hchat
              injection hchat with ha hb
              injection ha with ha
              rw [← ha]

/-- Witness for C9 at a concrete world: both request forms agree and the
fresh identifier is returned. -/
theorem empty_session_id_fresh_witness :
    chat ⟨fun _ => none, localLoad (fun _ => none),
          okLlm (fun _ => "resp"), none, "u", "t", "p"⟩ ⟨"m", some ""⟩ =
      chat ⟨fun _ => none, localLoad (fun _ => none),
            okLlm (fun _ => "resp"), none, "u", "t", "p"⟩ ⟨"m", none⟩ ∧
    effective_session_id (some "") "u" = "u" ∧
    (ChatResponse.mk "resp" "u").session_id = "u" :=
  ⟨(empty_session_id_fresh
      ⟨fun _ => none, localLoad (fun _ => none),
       okLlm (fun _ => "resp"), none, "u", "t", "p"⟩ "m").1,
   (empty_session_id_fresh
      ⟨fun _ => none, localLoad (fun _ => none),
       okLlm (fun _ => "resp"), none, "u", "t", "p"⟩ "m").2.1,
   (empty_session_id_fresh
      ⟨fun _ => none, localLoad (fun _ => none),
       okLlm (fun _ => "resp"), none, "u", "t", "p"⟩ "m").2.2
     ⟨"resp", "u"⟩ _ rfl⟩

end Server
